import Mathlib

/-!
Verification of the openverse-api adaptive crawl rate-limit control plane.

This file gives a shallow embedding of the worker-side statistics reporter
(`image_get/worker/worker/stats_reporting.py`), a model of the crawl-rate
regulator described only through its tests
(`image_get/test/test_monitor.py`; the module `crawl_monitor/rate_limit.py`
itself is not part of the source tree, so that component is modelled from
the specification), and the analytics usage report
(`analytics/reporting.py`).  Theorems at the end settle the frozen claims.

Conventions of the embedding:
* Redis is modelled as explicit state.  Counters are a total map
  `String → Int` (INCR on a missing key behaves as increment from 0).
* A sorted set is a map from member to optional score; `ZADD` overwrites the
  score of an existing member, `ZREMRANGEBYSCORE -inf x` removes every member
  whose score is ≤ x.
* Lists model `RPUSH`/`LTRIM` directly.
* Timestamps (`time.monotonic()`) are rationals.
-/

/-- A parsed top-level-domain object, as produced by `tldextract`:
`tld.domain` and `tld.suffix` (e.g. `staticflickr` / `com`). -/
structure Tld where
  domain : String
  suffix : String
deriving DecidableEq

/-- The canonical store key for a `Tld`, mirroring
`f'{tld.domain}.{tld.suffix}'` in `record_error` / `record_success`. -/
def Tld.key (t : Tld) : String :=
  t.domain ++ "." ++ t.suffix

/-- A Python status code value: either an integer (e.g. `404`, `500`) or a
string marker (e.g. `'UnidentifiedImageError'`). -/
inductive Code where
  | num : Int → Code
  | str : String → Code
deriving DecidableEq

/-- Python truthiness of a code value (`if code:`): `0` and `''` are falsy. -/
def Code.truthy : Code → Bool
  | .num n => n != 0
  | .str s => s != ""

/-- The test `code == 404 or code == 'UnidentifiedImageError'` from
`record_error`. -/
def Code.isBenign : Code → Bool
  | .num n => n == 404
  | .str s => s == "UnidentifiedImageError"

/-- String form of a code as used in the key
`f'{TLD_ERRORS}{domain}:{code}'`. -/
def Code.keyStr : Code → String
  | .num n => toString n
  | .str s => s

/- Key constants, verbatim from `stats_reporting.py`. -/

def STATUS_60s : String := "status60s:"
def STATUS_1HR : String := "status1hr:"
def STATUS_12HR : String := "status12hr:"

def LAST_50_REQUESTS : String := "statuslast50req:"

/-- Window intervals in seconds. -/
def ONE_MINUTE : ℚ := 60
def ONE_HOUR : ℚ := ONE_MINUTE * 60
def TWELVE_HOURS : ℚ := ONE_HOUR * 12

def WINDOW_PAIRS : List (String × ℚ) :=
  [(STATUS_60s, ONE_MINUTE), (STATUS_1HR, ONE_HOUR), (STATUS_12HR, TWELVE_HOURS)]

def ERROR_COUNT : String := "resize_errors"
def TLD_ERRORS : String := "resize_errors:"

def SUCCESS_COUNT : String := "num_resized"
def TLD_SUCCESS : String := "num_resized:"

def SUCCEEDED : Int := 1
def FAILED : Int := 0

def KNOWN_TLDS : String := "known_tlds"

/-- The slice of Redis state touched by the stats reporter: counters
(`INCR`), sorted sets keyed by string with integer members and rational
scores (`ZADD`/`ZREMRANGEBYSCORE`), plain lists (`RPUSH`/`LTRIM`), and the
`known_tlds` set of tld objects (`SADD`). -/
structure RedisState where
  counters : String → Int
  zsets : String → Int → Option ℚ
  lists : String → List String
  tldSet : List Tld

/-- Redis `INCR key`. -/
def RedisState.incr (s : RedisState) (key : String) : RedisState :=
  { s with counters := fun k => if k = key then s.counters k + 1 else s.counters k }

/-- Redis `ZADD key score member`: insert the member or overwrite its score. -/
def RedisState.zadd (s : RedisState) (key : String) (score : ℚ) (member : Int) :
    RedisState :=
  { s with zsets := fun k m =>
      if k = key then (if m = member then some score else s.zsets k m)
      else s.zsets k m }

/-- Redis `ZREMRANGEBYSCORE key -inf maxScore`: drop members with score ≤ maxScore. -/
def RedisState.zremrangebyscoreLe (s : RedisState) (key : String) (maxScore : ℚ) :
    RedisState :=
  { s with zsets := fun k m =>
      if k = key then
        match s.zsets k m with
        | some sc => if sc ≤ maxScore then none else some sc
        | none => none
      else s.zsets k m }

/-- Redis `RPUSH key v`. -/
def RedisState.rpush (s : RedisState) (key : String) (v : String) : RedisState :=
  { s with lists := fun k => if k = key then s.lists k ++ [v] else s.lists k }

/-- Redis `LTRIM key -50 -1`: keep only the last 50 elements. -/
def RedisState.ltrimLast50 (s : RedisState) (key : String) : RedisState :=
  { s with lists := fun k =>
      if k = key then (s.lists k).drop ((s.lists k).length - 50) else s.lists k }

/-- Redis `SADD known_tlds tld`. -/
def RedisState.saddTld (s : RedisState) (t : Tld) : RedisState :=
  { s with tldSet := if t ∈ s.tldSet then s.tldSet else t :: s.tldSet }

/-- Embedding of `StatsManager._record_window_samples(pipe, domain, success)`: for each
window `(stat_key, interval)` in `WINDOW_PAIRS`, `ZADD` the outcome member
with score `now`, then delete events from outside the window. -/
def record_window_samples (s : RedisState) (domain : String) (success : Int)
    (now : ℚ) : RedisState :=
  WINDOW_PAIRS.foldl
    (fun st p =>
      (st.zadd (p.1 ++ domain) now success).zremrangebyscoreLe (p.1 ++ domain)
        (now - p.2))
    s

/-- Embedding of `StatsManager._record_last_50_requests_sample`:
`RPUSH` the status onto `statuslast50req:{domain}` then `LTRIM` to the last
50 entries.  (This helper is defined in the source but never called.) -/
def record_last_50_requests_sample (s : RedisState) (domain : String)
    (status : String) : RedisState :=
  (s.rpush (LAST_50_REQUESTS ++ domain) status).ltrimLast50
    (LAST_50_REQUESTS ++ domain)

/-- Embedding of `StatsManager.record_error(tld, code)`, mirroring the
source control flow:
increment the global and per-domain error counters; if `code` is truthy,
increment the per-code counter and suppress the window write when the code is
`404` or `'UnidentifiedImageError'`; otherwise record a `FAILED` sample in
all three sliding windows.  The `statuslast50req` list is not touched. -/
def record_error (s : RedisState) (tld : Tld) (code : Option Code) (now : ℚ) :
    RedisState :=
  let domain := tld.key
  let s1 := (s.incr ERROR_COUNT).incr (TLD_ERRORS ++ domain)
  match code with
  | none => record_window_samples s1 domain FAILED now
  | some c =>
    if c.truthy then
      let s2 := s1.incr (TLD_ERRORS ++ domain ++ ":" ++ c.keyStr)
      if c.isBenign then s2
      else record_window_samples s2 domain FAILED now
    else record_window_samples s1 domain FAILED now

/-- Embedding of `StatsManager.record_success(tld)`. -/
def record_success (s : RedisState) (tld : Tld) (now : ℚ) : RedisState :=
  let domain := tld.key
  let s1 := (s.incr SUCCESS_COUNT).incr (TLD_SUCCESS ++ domain)
  record_window_samples s1 domain SUCCEEDED now

/-- The `StatsManager` object: its Redis connection together with the
in-memory `known_tlds` mirror.  `saddCount` instruments how many `SADD`
commands have been issued to the store, so that "performs no store write"
is expressible. -/
structure StatsManager where
  redis : RedisState
  known_tlds : List Tld
  saddCount : Nat

/-- Embedding of `StatsManager.update_tlds(tld)`: if the tld has not been seen before,
add it to the in-memory set and `SADD` it to `known_tlds` in Redis. -/
def update_tlds (m : StatsManager) (t : Tld) : StatsManager :=
  if t ∈ m.known_tlds then m
  else
    { redis := m.redis.saddTld t
      known_tlds := t :: m.known_tlds
      saddCount := m.saddCount + 1 }

/-- An empty store: all counters 0, all sets and lists empty. -/
def initRedis : RedisState :=
  { counters := fun _ => 0
    zsets := fun _ _ => none
    lists := fun _ => []
    tldSet := [] }

/-!
Crawl-rate regulator.  The module `crawl_monitor/rate_limit.py` is not part
of the source tree; only its tests (`image_get/test/test_monitor.py`) are.
The definitions below are therefore modelled from the specification
(§4.4, §4.4.1, §4.4.2 of the spec), parameterised over the configuration
constants the spec names.
-/

def CURRTOKENS : String := "currtokens:"

/-- Modelled from the spec: a catalog entry returned by `/v1/sources`
(§3, §6), `{source_name, image_count, display_name, source_url}`. -/
structure Source where
  source_name : String
  image_count : ℚ
  display_name : String
  source_url : String

/-- Modelled from the spec: the configuration constants of
`crawl_monitor/rate_limit.py` (§6): rate bounds, the size above which the
maximum rate applies, and the temporary-halt parameters
(`TEMP_HALT_MIN_SAMPLES` and the failure-share threshold the spec calls the
temp-halt threshold ratio). -/
structure RegConfig where
  MIN_CRAWL_RPS : ℚ
  MAX_CRAWL_RPS : ℚ
  MAX_CRAWL_SIZE : ℚ
  TEMP_HALT_MIN_SAMPLES : Nat
  TEMP_HALT_THRESHOLD : ℚ

/-- Modelled from the spec: `compute_crawl_rate(image_count)` (§4.4.1):
linear in the catalog size, scaled so that `MAX_CRAWL_SIZE` maps to
`MAX_CRAWL_RPS`, and clamped to `[MIN_CRAWL_RPS, MAX_CRAWL_RPS]`.  Small
counts return the floor rate, counts at or above `MAX_CRAWL_SIZE` return the
ceiling rate, and the midpoint maps to half the ceiling rate. -/
def compute_crawl_rate (cfg : RegConfig) (image_count : ℚ) : ℚ :=
  max cfg.MIN_CRAWL_RPS
    (min cfg.MAX_CRAWL_RPS
      (cfg.MAX_CRAWL_RPS * image_count / cfg.MAX_CRAWL_SIZE))

/-- Modelled from the spec: the slice of store state the regulator reads and
writes (§3).  `currtokens` is keyed by `currtokens:{domain}` (`none` means
the key is absent, which reads as 0); `last50` by
`statuslast50req:{domain}`; `status60s` by `status60s:{domain}`, holding
`(score, outcome)` members with outcome 1 = success, 0 = failure. -/
structure RegState where
  currtokens : String → Option ℚ
  halted : List String
  temp_halted : List String
  last50 : String → List String
  status60s : String → List (ℚ × Int)
  known_tlds : List String

/-- Reading `currtokens:{domain}`: an absent key counts as 0 tokens. -/
def RegState.tokenValue (s : RegState) (key : String) : ℚ :=
  (s.currtokens key).getD 0

/-- The numeric value of a decimal digit character, if it is one. -/
def digitVal (c : Char) : Option Nat :=
  if '0' ≤ c ∧ c ≤ '9' then some (c.toNat - 48) else none

/-- Parse a non-empty all-digit character list as a decimal number. -/
def parseNatAux : List Char → Nat → Option Nat
  | [], acc => some acc
  | c :: cs, acc =>
    match digitVal c with
    | some d => parseNatAux cs (acc * 10 + d)
    | none => none

/-- Parse a stringified status code such as `"500"`; markers such as
`"UnidentifiedImageError"` parse as `none`. -/
def parseStatusCode (s : String) : Option Nat :=
  match s.data with
  | [] => none
  | l => parseNatAux l 0

/-- Whether a `statuslast50req` entry encodes a server error
(a numeric status code ≥ 500). -/
def isServerError (entry : String) : Bool :=
  match parseStatusCode entry with
  | some n => 500 ≤ n
  | none => false

/-- Modelled from the spec: the hard-halt breaker (§4.4.2): trip when the
`statuslast50req` list has at least 50 entries and at least 50 of them
encode a server error. -/
def hardHaltCheck (entries : List String) : Bool :=
  decide (50 ≤ entries.length) &&
    decide (50 ≤ (entries.filter isServerError).length)

/-- Modelled from the spec: the temporary-halt breaker (§4.4.2): among the
members of `status60s:{domain}` whose score lies within the last 60 seconds,
count failures (value 0) and successes (value 1); trip when the total is at
least `TEMP_HALT_MIN_SAMPLES` and the failures reach the threshold share of
the total. -/
def tempHaltCheck (cfg : RegConfig) (now : ℚ) (window : List (ℚ × Int)) :
    Bool :=
  let inWin := window.filter (fun e => decide (now - 60 ≤ e.1) && decide (e.1 ≤ now))
  let failures := (inWin.filter (fun e => e.2 == FAILED)).length
  let successes := (inWin.filter (fun e => e.2 == SUCCEEDED)).length
  let total := failures + successes
  decide (cfg.TEMP_HALT_MIN_SAMPLES ≤ total) &&
    decide (cfg.TEMP_HALT_THRESHOLD * total ≤ failures)

/-- Redis `SADD` on a set of strings. -/
def saddStr (l : List String) (d : String) : List String :=
  if d ∈ l then l else d :: l

/-- Modelled from the spec: one regulator step for a single source (§4.4
step 2): skip domains outside `known_tlds`; otherwise compute the target
rate, evaluate both breakers (which may add the domain to `halted` /
`temp_halted` and override the target to 0), and overwrite
`currtokens:{domain}` — except that a halted domain's bucket is not
refilled at all.  The source's `source_url` is already the canonical
domain key in every scenario the spec states. -/
def processSource (cfg : RegConfig) (now : ℚ) (st : RegState) (src : Source) :
    RegState :=
  let domain := src.source_url
  if domain ∈ st.known_tlds then
    let target := compute_crawl_rate cfg src.image_count
    let hard := hardHaltCheck (st.last50 (LAST_50_REQUESTS ++ domain))
    let temp := tempHaltCheck cfg now (st.status60s (STATUS_60s ++ domain))
    let st1 := if hard then { st with halted := saddStr st.halted domain } else st
    let st2 :=
      if temp then { st1 with temp_halted := saddStr st1.temp_halted domain }
      else st1
    if domain ∈ st2.halted then st2
    else
      { st2 with currtokens := fun k =>
          if k = CURRTOKENS ++ domain then some (if temp then 0 else target)
          else st2.currtokens k }
  else st

/-- Modelled from the spec: one tick of the rate regulator (§4.4): process
every fetched source in order. -/
def regulator_tick (cfg : RegConfig) (now : ℚ)
    (sources : List Source) (st : RegState) : RegState :=
  sources.foldl (processSource cfg now) st

/-- The source fixture of `test_monitor.py`. -/
def exampleSource : Source :=
  { source_name := "example"
    image_count := 5000000
    display_name := "Example"
    source_url := "example.com" }

/-- A regulator pre-state with empty store except for `known_tlds`. -/
def cleanRegState : RegState :=
  { currtokens := fun _ => none
    halted := []
    temp_halted := []
    last50 := fun _ => []
    status60s := fun _ => []
    known_tlds := ["example.com"] }

/-!
Analytics usage report (`analytics/reporting.py`).  The event tables are
modelled as lists of rows; SQLAlchemy `count()` over a filtered query is the
length of the filtered list, and `count(distinct(...))` deduplicates first.
All timestamp filters in `generate_usage_report` are strict on both ends.
-/

/-- The `DetailPageEvents` event-type enumeration, as used by
`generate_usage_report`. -/
inductive DetailPageEventType where
  | ATTRIBUTION_CLICKED
  | REUSE_SURVEY
  | SOURCE_CLICKED
  | CREATOR_CLICKED
  | SHARED_SOCIAL
deriving DecidableEq

/-- The relational tables `generate_usage_report` queries, reduced to the
columns it reads: event timestamps, the detail-page event type, and the
search session UUID. -/
structure AnalyticsDB where
  resultClickedEvents : List ℚ
  detailPageEvents : List (ℚ × DetailPageEventType)
  searchEvents : List (ℚ × String)
  attributionReferrerEvents : List ℚ

/-- Python division, with `ZeroDivisionError` made explicit. -/
def pyDiv (a b : ℚ) : Except Unit ℚ :=
  if b = 0 then Except.error () else Except.ok (a / b)

/-- The fields of the dictionary returned by `generate_usage_report`.
(The source's `avg_rating` entry is an unexecuted query object, not a
number; it carries no data relevant here and is omitted.) -/
structure UsageReport where
  results_clicked : Nat
  attribution_buttonclicks : Nat
  survey_responses : Nat
  source_clicked : Nat
  creator_clicked : Nat
  shared_social : Nat
  sessions : Nat
  searches : Nat
  attribution_referer_hits : Nat
  avg_searches_per_session : ℚ
  timestamp : ℚ

/-- Embedding of `generate_usage_report(session, start_time, end_time)`: count each event
kind in the open interval `(start_time, end_time)`, count distinct search
sessions, and compute `searches / sessions`, substituting 0 when the
division raises `ZeroDivisionError`. -/
def generate_usage_report (db : AnalyticsDB) (start_time end_time : ℚ) :
    UsageReport :=
  let inWin := fun (ts : ℚ) => decide (start_time < ts) && decide (ts < end_time)
  let countDetail := fun (ty : DetailPageEventType) =>
    (db.detailPageEvents.filter (fun e => inWin e.1 && (e.2 == ty))).length
  let winSearches := db.searchEvents.filter (fun e => inWin e.1)
  let sessions := ((winSearches.map Prod.snd).dedup).length
  let searches := winSearches.length
  let avg_searches_per_session :=
    match pyDiv (searches : ℚ) (sessions : ℚ) with
    | Except.ok v => v
    | Except.error _ => 0
  { results_clicked := (db.resultClickedEvents.filter inWin).length
    attribution_buttonclicks := countDetail .ATTRIBUTION_CLICKED
    survey_responses := countDetail .REUSE_SURVEY
    source_clicked := countDetail .SOURCE_CLICKED
    creator_clicked := countDetail .CREATOR_CLICKED
    shared_social := countDetail .SHARED_SOCIAL
    sessions := sessions
    searches := searches
    attribution_referer_hits := (db.attributionReferrerEvents.filter inWin).length
    avg_searches_per_session := avg_searches_per_session
    timestamp := end_time }


/-!
Helper lemmas.
-/

theorem ne_of_length_ne {p q : String} (h : p.length ≠ q.length) : p ≠ q :=
  fun he => h (congrArg String.length he)

theorem append_left_ne {p q : String} (d : String) (h : p ≠ q) :
    p ++ d ≠ q ++ d := by
  intro he
  apply h
  have hd : p.data ++ d.data = q.data ++ d.data := by
    rw [← String.data_append, ← String.data_append, he]
  have h2 : p.data = q.data := List.append_cancel_right hd
  cases p
  cases q
  simp only at h2
  rw [h2]

theorem key_ne_err_tld (d : String) : ERROR_COUNT ≠ TLD_ERRORS ++ d := by
  apply ne_of_length_ne
  rw [String.length_append]
  have h1 : ERROR_COUNT.length = 13 := rfl
  have h2 : TLD_ERRORS.length = 14 := rfl
  omega

theorem key_ne_err_code (d c : String) :
    ERROR_COUNT ≠ TLD_ERRORS ++ d ++ ":" ++ c := by
  apply ne_of_length_ne
  rw [String.length_append, String.length_append, String.length_append]
  have h1 : ERROR_COUNT.length = 13 := rfl
  have h2 : TLD_ERRORS.length = 14 := rfl
  have h3 : (":" : String).length = 1 := rfl
  omega

theorem key_ne_tld_code (d c : String) :
    TLD_ERRORS ++ d ≠ TLD_ERRORS ++ d ++ ":" ++ c := by
  apply ne_of_length_ne
  rw [String.length_append, String.length_append, String.length_append,
    String.length_append]
  have h3 : (":" : String).length = 1 := rfl
  omega

theorem win_ne_60_1hr (d : String) : STATUS_60s ++ d ≠ STATUS_1HR ++ d :=
  append_left_ne d (by decide)

theorem win_ne_60_12hr (d : String) : STATUS_60s ++ d ≠ STATUS_12HR ++ d :=
  append_left_ne d (by decide)

theorem win_ne_1hr_12hr (d : String) : STATUS_1HR ++ d ≠ STATUS_12HR ++ d :=
  append_left_ne d (by decide)

theorem benign_truthy {c : Code} (h : c.isBenign = true) : c.truthy = true := by
  cases c with
  | num n =>
    simp only [Code.isBenign, beq_iff_eq] at h
    subst h
    decide
  | str s =>
    simp only [Code.isBenign, beq_iff_eq] at h
    subst h
    decide

theorem rws_counters (s : RedisState) (d : String) (v : Int) (now : ℚ) :
    (record_window_samples s d v now).counters = s.counters := by
  simp [record_window_samples, WINDOW_PAIRS, RedisState.zadd,
    RedisState.zremrangebyscoreLe]

theorem rws_lists (s : RedisState) (d : String) (v : Int) (now : ℚ) :
    (record_window_samples s d v now).lists = s.lists := by
  simp [record_window_samples, WINDOW_PAIRS, RedisState.zadd,
    RedisState.zremrangebyscoreLe]

theorem rws_tldSet (s : RedisState) (d : String) (v : Int) (now : ℚ) :
    (record_window_samples s d v now).tldSet = s.tldSet := by
  simp [record_window_samples, WINDOW_PAIRS, RedisState.zadd,
    RedisState.zremrangebyscoreLe]

/-- The effect of one `ZADD`-then-trim pass on a single window key. -/
def windowUpdate (f : Int → Option ℚ) (v : Int) (now cutoff : ℚ) :
    Int → Option ℚ :=
  fun m =>
    match (if m = v then some now else f m) with
    | some sc => if sc ≤ cutoff then none else some sc
    | none => none

theorem windowUpdate_self (f : Int → Option ℚ) (v : Int) (now cutoff : ℚ)
    (h : ¬(now ≤ cutoff)) : windowUpdate f v now cutoff v = some now := by
  simp [windowUpdate, h]

theorem windowUpdate_bound (f : Int → Option ℚ) (v : Int) (now cutoff : ℚ)
    (m : Int) (sc : ℚ) (h : windowUpdate f v now cutoff m = some sc) :
    cutoff < sc := by
  simp only [windowUpdate] at h
  split at h
  · split at h
    · exact absurd h (by simp)
    · simp only [Option.some.injEq] at h
      subst h
      linarith
  · exact absurd h (by simp)

theorem rws_zsets_at (s : RedisState) (d : String) (v : Int) (now : ℚ) :
    ∀ p ∈ WINDOW_PAIRS,
      (record_window_samples s d v now).zsets (p.1 ++ d) =
        windowUpdate (s.zsets (p.1 ++ d)) v now (now - p.2) := by
  intro p hp
  funext m
  simp only [WINDOW_PAIRS, List.mem_cons, List.not_mem_nil, or_false] at hp
  rcases hp with hp | hp | hp <;> subst hp <;>
    simp [record_window_samples, WINDOW_PAIRS, RedisState.zadd,
      RedisState.zremrangebyscoreLe, windowUpdate,
      win_ne_60_1hr d, win_ne_60_12hr d, win_ne_1hr_12hr d,
      (win_ne_60_1hr d).symm, (win_ne_60_12hr d).symm,
      (win_ne_1hr_12hr d).symm]

theorem window_cutoff_lt (now : ℚ) :
    ∀ p ∈ WINDOW_PAIRS, ¬(now ≤ now - p.2) := by
  intro p hp
  simp only [WINDOW_PAIRS, List.mem_cons, List.not_mem_nil, or_false] at hp
  rcases hp with hp | hp | hp <;> subst hp <;>
    simp only [ONE_MINUTE, ONE_HOUR, TWELVE_HOURS] <;> push_neg <;> linarith

theorem rws_self_mem (s : RedisState) (d : String) (v : Int) (now : ℚ) :
    ∀ p ∈ WINDOW_PAIRS,
      (record_window_samples s d v now).zsets (p.1 ++ d) v = some now := by
  intro p hp
  rw [rws_zsets_at s d v now p hp]
  exact windowUpdate_self _ v now _ (window_cutoff_lt now p hp)

theorem rws_score_bound (s : RedisState) (d : String) (v : Int) (now : ℚ) :
    ∀ p ∈ WINDOW_PAIRS, ∀ m sc,
      (record_window_samples s d v now).zsets (p.1 ++ d) m = some sc →
        now - p.2 < sc := by
  intro p hp m sc h
  rw [rws_zsets_at s d v now p hp] at h
  exact windowUpdate_bound _ v now _ m sc h

theorem record_error_eq_none (s : RedisState) (tld : Tld) (now : ℚ) :
    record_error s tld none now =
      record_window_samples ((s.incr ERROR_COUNT).incr (TLD_ERRORS ++ tld.key))
        tld.key FAILED now := rfl

theorem record_error_eq_benign (s : RedisState) (tld : Tld) (c : Code) (now : ℚ)
    (ht : c.truthy = true) (hb : c.isBenign = true) :
    record_error s tld (some c) now =
      ((s.incr ERROR_COUNT).incr (TLD_ERRORS ++ tld.key)).incr
        (TLD_ERRORS ++ tld.key ++ ":" ++ c.keyStr) := by
  simp [record_error, ht, hb]

theorem record_error_eq_code (s : RedisState) (tld : Tld) (c : Code) (now : ℚ)
    (ht : c.truthy = true) (hb : c.isBenign = false) :
    record_error s tld (some c) now =
      record_window_samples
        (((s.incr ERROR_COUNT).incr (TLD_ERRORS ++ tld.key)).incr
          (TLD_ERRORS ++ tld.key ++ ":" ++ c.keyStr)) tld.key FAILED now := by
  simp [record_error, ht, hb]

theorem record_error_eq_falsy (s : RedisState) (tld : Tld) (c : Code) (now : ℚ)
    (ht : c.truthy = false) :
    record_error s tld (some c) now =
      record_window_samples ((s.incr ERROR_COUNT).incr (TLD_ERRORS ++ tld.key))
        tld.key FAILED now := by
  simp [record_error, ht]

/-- The `affect_rate_limiting` flag computed by `record_error` from the
optional code. -/
def rateAffecting : Option Code → Bool
  | none => true
  | some c => if c.truthy then !c.isBenign else true

/-- The tld object for `example.com`, used in concrete scenarios. -/
def exTld : Tld := { domain := "example", suffix := "com" }

/-- C1: for a supplied code equal to `404` or `'UnidentifiedImageError'`,
`record_error` increments the global, per-domain, and per-domain per-code
error counters by one and adds no member to any sliding window (the sorted
sets are untouched); for every other supplied code, a failure member scored
`now` is added to all three sliding windows of the domain. -/
theorem claim_C1 (s : RedisState) (tld : Tld) (c : Code) (now : ℚ) :
    (c.isBenign = true →
      (record_error s tld (some c) now).counters ERROR_COUNT
          = s.counters ERROR_COUNT + 1 ∧
      (record_error s tld (some c) now).counters (TLD_ERRORS ++ tld.key)
          = s.counters (TLD_ERRORS ++ tld.key) + 1 ∧
      (record_error s tld (some c) now).counters
            (TLD_ERRORS ++ tld.key ++ ":" ++ c.keyStr)
          = s.counters (TLD_ERRORS ++ tld.key ++ ":" ++ c.keyStr) + 1 ∧
      (record_error s tld (some c) now).zsets = s.zsets) ∧
    (c.isBenign = false →
      ∀ p ∈ WINDOW_PAIRS,
        (record_error s tld (some c) now).zsets (p.1 ++ tld.key) FAILED
          = some now) := by
  constructor
  · intro hb
    rw [record_error_eq_benign s tld c now (benign_truthy hb) hb]
    refine ⟨?_, ?_, ?_, rfl⟩
    · simp [RedisState.incr, key_ne_err_tld tld.key,
        key_ne_err_code tld.key c.keyStr]
    · simp [RedisState.incr, (key_ne_err_tld tld.key).symm,
        key_ne_tld_code tld.key c.keyStr]
    · simp [RedisState.incr, (key_ne_err_code tld.key c.keyStr).symm,
        (key_ne_tld_code tld.key c.keyStr).symm]
  · intro hb p hp
    by_cases ht : c.truthy = true
    · rw [record_error_eq_code s tld c now ht hb]
      exact rws_self_mem _ _ _ _ p hp
    · rw [record_error_eq_falsy s tld c now (by simpa using ht)]
      exact rws_self_mem _ _ _ _ p hp

/-- Witness for C1: with code 404 the sorted sets are untouched, and with
code 500 a failure member scored `now` appears in the 60-second window. -/
theorem claim_C1_witness :
    (record_error initRedis exTld (some (Code.num 404)) 0).zsets
        = initRedis.zsets ∧
    (record_error initRedis exTld (some (Code.num 500)) 0).zsets
        (STATUS_60s ++ exTld.key) FAILED = some 0 :=
  ⟨((claim_C1 initRedis exTld (Code.num 404) 0).1 (by decide)).2.2.2,
   (claim_C1 initRedis exTld (Code.num 500) 0).2 (by decide)
     (STATUS_60s, ONE_MINUTE) (by simp [WINDOW_PAIRS])⟩

/-- C2 (code bug): `record_error` never touches the `statuslast50req:{domain}`
list — at the failing input (code 500 on an empty store) the list stays
empty instead of receiving `"500"`.  The source defines the helper
`_record_last_50_requests_sample` (which would append and trim to at most 50
entries, third conjunct) but `record_error` never calls it, so the list the
hard-halt breaker inspects is never populated by the reporter. -/
theorem claim_C2 :
    (record_error initRedis exTld (some (Code.num 500)) 0).lists
        (LAST_50_REQUESTS ++ exTld.key) = [] ∧
    (∀ (s : RedisState) (tld : Tld) (code : Option Code) (now : ℚ),
      (record_error s tld code now).lists = s.lists) ∧
    (∀ (s : RedisState) (d st : String),
      ((record_last_50_requests_sample s d st).lists
          (LAST_50_REQUESTS ++ d)).length ≤ 50) := by
  have hgen : ∀ (s : RedisState) (tld : Tld) (code : Option Code) (now : ℚ),
      (record_error s tld code now).lists = s.lists := by
    intro s tld code now
    cases code with
    | none => rw [record_error_eq_none, rws_lists]; rfl
    | some c =>
      by_cases ht : c.truthy = true
      · by_cases hb : c.isBenign = true
        · rw [record_error_eq_benign s tld c now ht hb]; rfl
        · rw [record_error_eq_code s tld c now ht (by simpa using hb), rws_lists]
          rfl
      · rw [record_error_eq_falsy s tld c now (by simpa using ht), rws_lists]
        rfl
  refine ⟨by rw [hgen]; rfl, hgen, ?_⟩
  intro s d st
  simp only [record_last_50_requests_sample, RedisState.rpush,
    RedisState.ltrimLast50, if_pos rfl, if_true, List.length_drop]
  omega

/-- C3 (amended): after `record_success`, or after `record_error` whose code
actually affects rate limiting (no code, a falsy code, or any code other
than `404` / `'UnidentifiedImageError'`), every member remaining in each of
the domain's three sliding windows has a score strictly greater than
`now - interval` (hence at least `now - 60` for the 60-second window).
Benign `record_error` calls leave the windows untrimmed, which is the
counterexample to the claim as stated. -/
theorem claim_C3 (s : RedisState) (tld : Tld) (now : ℚ) (code : Option Code)
    (h : rateAffecting code = true) :
    ∀ p ∈ WINDOW_PAIRS, ∀ (m : Int) (sc : ℚ),
      ((record_error s tld code now).zsets (p.1 ++ tld.key) m = some sc →
          now - p.2 < sc) ∧
      ((record_success s tld now).zsets (p.1 ++ tld.key) m = some sc →
          now - p.2 < sc) := by
  intro p hp m sc
  constructor
  · intro hm
    cases code with
    | none =>
      rw [record_error_eq_none] at hm
      exact rws_score_bound _ _ _ _ p hp m sc hm
    | some c =>
      by_cases ht : c.truthy = true
      · have hb : c.isBenign = false := by
          simp only [rateAffecting, ht, if_true] at h
          simpa using h
        rw [record_error_eq_code s tld c now ht hb] at hm
        exact rws_score_bound _ _ _ _ p hp m sc hm
      · rw [record_error_eq_falsy s tld c now (by simpa using ht)] at hm
        exact rws_score_bound _ _ _ _ p hp m sc hm
  · intro hm
    exact rws_score_bound _ _ _ _ p hp m sc hm

/-- Counterexample for C3 as stated: a success recorded at time 0 leaves
member 1 with score 0 in `status60s:example.com`; a later benign
`record_error(404)` at time 100 does not trim the window, so a member with
score 0 < 100 − 60 remains after that reporter call. -/
theorem claim_C3_counterexample :
    (record_error (record_success initRedis exTld 0) exTld
        (some (Code.num 404)) 100).zsets (STATUS_60s ++ exTld.key) SUCCEEDED
        = some 0 ∧
    ¬((100 : ℚ) - ONE_MINUTE ≤ 0) := by
  constructor
  · rw [record_error_eq_benign _ exTld (Code.num 404) 100 (by decide) (by decide)]
    show (record_success initRedis exTld 0).zsets
      (STATUS_60s ++ exTld.key) SUCCEEDED = some 0
    exact rws_self_mem _ _ _ _ (STATUS_60s, ONE_MINUTE) (by simp [WINDOW_PAIRS])
  · rw [ONE_MINUTE]
    norm_num

/-- Witness for C3 (amended): a rate-affecting `record_error(500)` at time 0
puts the failure member at score 0 in the 60-second window, and the proved
bound `now − 60 < score` holds there. -/
theorem claim_C3_witness :
    rateAffecting (some (Code.num 500)) = true ∧ ((0 : ℚ) - ONE_MINUTE < 0) := by
  refine ⟨by decide, ?_⟩
  have h0 : (record_error initRedis exTld (some (Code.num 500)) 0).zsets
      (STATUS_60s ++ exTld.key) FAILED = some 0 := by
    rw [record_error_eq_code initRedis exTld (Code.num 500) 0 (by decide)
      (by decide)]
    exact rws_self_mem _ _ _ _ (STATUS_60s, ONE_MINUTE) (by simp [WINDOW_PAIRS])
  exact (claim_C3 initRedis exTld 0 (some (Code.num 500)) (by decide)
    (STATUS_60s, ONE_MINUTE) (by simp [WINDOW_PAIRS]) FAILED 0).1 h0

/-- C8: calling `update_tlds` with the same tld any number of times (at
least once) leaves the `StatsManager` — its in-memory mirror, the
`known_tlds` set in the store, and the count of issued `SADD` commands —
in exactly the state of a single call; in particular calls after the first
issue no store write. -/
theorem claim_C8 (m : StatsManager) (t : Tld) (n : Nat) :
    (fun st => update_tlds st t)^[n + 1] m = update_tlds m t ∧
    (update_tlds (update_tlds m t) t).saddCount = (update_tlds m t).saddCount := by
  have hmem : t ∈ (update_tlds m t).known_tlds := by
    by_cases h : t ∈ m.known_tlds <;> simp [update_tlds, h]
  have hstable : ∀ x : StatsManager, t ∈ x.known_tlds → update_tlds x t = x := by
    intro x hx
    simp [update_tlds, hx]
  have hidem : update_tlds (update_tlds m t) t = update_tlds m t :=
    hstable _ hmem
  constructor
  · induction n with
    | zero => rfl
    | succ k ih => rw [Function.iterate_succ_apply', ih, hidem]
  · rw [hidem]

/-- Every member of a sorted set in the store is one of the two outcome
values `SUCCEEDED` (1) or `FAILED` (0). -/
def windowMembersOK (s : RedisState) : Prop :=
  ∀ (k : String) (m : Int), (s.zsets k m).isSome = true →
    m = SUCCEEDED ∨ m = FAILED

theorem zadd_isSome (s : RedisState) (key : String) (score : ℚ) (member : Int)
    (k : String) (m : Int)
    (h : ((s.zadd key score member).zsets k m).isSome = true) :
    (s.zsets k m).isSome = true ∨ m = member := by
  by_cases hm : m = member
  · exact Or.inr hm
  · refine Or.inl ?_
    by_cases hk : k = key
    · subst hk
      simpa [RedisState.zadd, hm] using h
    · simpa [RedisState.zadd, hk] using h

theorem zrem_isSome (s : RedisState) (key : String) (c : ℚ) (k : String)
    (m : Int)
    (h : ((s.zremrangebyscoreLe key c).zsets k m).isSome = true) :
    (s.zsets k m).isSome = true := by
  by_cases hk : k = key
  · subst hk
    cases hz : s.zsets k m with
    | none =>
      simp only [RedisState.zremrangebyscoreLe, if_pos rfl, if_true, hz] at h
      simp at h
    | some sc => simp
  · simpa [RedisState.zremrangebyscoreLe, hk] using h

theorem rws_membersOK (s : RedisState) (d : String) (v : Int) (now : ℚ)
    (hv : v = SUCCEEDED ∨ v = FAILED) (h : windowMembersOK s) :
    windowMembersOK (record_window_samples s d v now) := by
  intro k m hm
  simp only [record_window_samples, WINDOW_PAIRS, List.foldl] at hm
  have h1 := zrem_isSome _ _ _ _ _ hm
  rcases zadd_isSome _ _ _ _ _ _ h1 with h2 | h2
  · have h3 := zrem_isSome _ _ _ _ _ h2
    rcases zadd_isSome _ _ _ _ _ _ h3 with h4 | h4
    · have h5 := zrem_isSome _ _ _ _ _ h4
      rcases zadd_isSome _ _ _ _ _ _ h5 with h6 | h6
      · exact h k m h6
      · rw [h6]; exact hv
    · rw [h4]; exact hv
  · rw [h2]; exact hv

theorem incr_membersOK (s : RedisState) (key : String)
    (h : windowMembersOK s) : windowMembersOK (s.incr key) := by
  intro k m hm
  exact h k m hm

/-- C9: the reporter only ever `ZADD`s the member `SUCCEEDED` (1) or
`FAILED` (0), updating that member's score in place, so after any
`record_error` or `record_success` call every sliding-window sorted set
still contains at most the two distinct members 1 and 0. -/
theorem claim_C9 (s : RedisState) (h : windowMembersOK s) (tld : Tld)
    (code : Option Code) (now : ℚ) :
    windowMembersOK (record_error s tld code now) ∧
    windowMembersOK (record_success s tld now) := by
  constructor
  · cases code with
    | none =>
      rw [record_error_eq_none]
      exact rws_membersOK _ _ _ _ (Or.inr rfl)
        (incr_membersOK _ _ (incr_membersOK _ _ h))
    | some c =>
      by_cases ht : c.truthy = true
      · by_cases hb : c.isBenign = true
        · rw [record_error_eq_benign s tld c now ht hb]
          exact incr_membersOK _ _ (incr_membersOK _ _ (incr_membersOK _ _ h))
        · rw [record_error_eq_code s tld c now ht (by simpa using hb)]
          exact rws_membersOK _ _ _ _ (Or.inr rfl)
            (incr_membersOK _ _ (incr_membersOK _ _ (incr_membersOK _ _ h)))
      · rw [record_error_eq_falsy s tld c now (by simpa using ht)]
        exact rws_membersOK _ _ _ _ (Or.inr rfl)
          (incr_membersOK _ _ (incr_membersOK _ _ h))
  · exact rws_membersOK _ _ _ _ (Or.inl rfl)
      (incr_membersOK _ _ (incr_membersOK _ _ h))

/-- Witness for C9: starting from the empty store, one error and one success
report each preserve the two-member property. -/
theorem claim_C9_witness :
    windowMembersOK (record_error initRedis exTld (some (Code.num 500)) 0) ∧
    windowMembersOK (record_success initRedis exTld 0) :=
  claim_C9 initRedis (fun k m hm => by simp [initRedis] at hm) exTld
    (some (Code.num 500)) 0

/-- C6: under the spec's constraints on the configuration (positive
`MAX_CRAWL_SIZE` not exceeding 10⁹, nonnegative ceiling rate, floor rate at
least the rate assigned to a single image and at most half the ceiling),
`compute_crawl_rate(1)` is the floor rate, `compute_crawl_rate(10⁹)` is the
ceiling rate, and the value at half the maximum crawl size is within 2 of
half the ceiling rate. -/
theorem claim_C6 (cfg : RegConfig)
    (h1 : 0 < cfg.MAX_CRAWL_SIZE) (h2 : cfg.MAX_CRAWL_SIZE ≤ 10 ^ 9)
    (h3 : 0 ≤ cfg.MAX_CRAWL_RPS)
    (h4 : cfg.MAX_CRAWL_RPS / cfg.MAX_CRAWL_SIZE ≤ cfg.MIN_CRAWL_RPS)
    (h5 : cfg.MIN_CRAWL_RPS ≤ cfg.MAX_CRAWL_RPS / 2) :
    compute_crawl_rate cfg 1 = cfg.MIN_CRAWL_RPS ∧
    compute_crawl_rate cfg (10 ^ 9) = cfg.MAX_CRAWL_RPS ∧
    |compute_crawl_rate cfg (cfg.MAX_CRAWL_SIZE / 2)
        - cfg.MAX_CRAWL_RPS / 2| < 2 := by
  refine ⟨?_, ?_, ?_⟩
  · rw [compute_crawl_rate, mul_one]
    exact max_eq_left (le_trans (min_le_right _ _) h4)
  · rw [compute_crawl_rate]
    have hge : cfg.MAX_CRAWL_RPS ≤
        cfg.MAX_CRAWL_RPS * 10 ^ 9 / cfg.MAX_CRAWL_SIZE := by
      rw [mul_div_assoc]
      nth_rewrite 1 [← mul_one cfg.MAX_CRAWL_RPS]
      apply mul_le_mul_of_nonneg_left _ h3
      rw [le_div_iff₀ h1]
      linarith
    rw [min_eq_left hge, max_eq_right (le_trans h5 (by linarith))]
  · have hmid : cfg.MAX_CRAWL_RPS * (cfg.MAX_CRAWL_SIZE / 2)
        / cfg.MAX_CRAWL_SIZE = cfg.MAX_CRAWL_RPS / 2 := by
      field_simp
      ring
    rw [compute_crawl_rate, hmid, min_eq_right (by linarith),
      max_eq_right h5]
    simp only [sub_self, abs_zero]
    norm_num

/-- A plausible concrete configuration satisfying the spec's constraints. -/
def cfg0 : RegConfig :=
  { MIN_CRAWL_RPS := 2
    MAX_CRAWL_RPS := 200
    MAX_CRAWL_SIZE := 10 ^ 8
    TEMP_HALT_MIN_SAMPLES := 10
    TEMP_HALT_THRESHOLD := 1 / 4 }

/-- Witness for C6 at the concrete configuration `cfg0`. -/
theorem claim_C6_witness :
    compute_crawl_rate cfg0 1 = cfg0.MIN_CRAWL_RPS ∧
    compute_crawl_rate cfg0 (10 ^ 9) = cfg0.MAX_CRAWL_RPS ∧
    |compute_crawl_rate cfg0 (cfg0.MAX_CRAWL_SIZE / 2)
        - cfg0.MAX_CRAWL_RPS / 2| < 2 :=
  claim_C6 cfg0 (by norm_num [cfg0]) (by norm_num [cfg0]) (by norm_num [cfg0])
    (by norm_num [cfg0]) (by norm_num [cfg0])

theorem tempHaltCheck_nil (cfg : RegConfig) (now : ℚ)
    (h : 1 ≤ cfg.TEMP_HALT_MIN_SAMPLES) : tempHaltCheck cfg now [] = false := by
  simp only [tempHaltCheck, List.filter_nil, List.length_nil, Nat.add_zero,
    Bool.and_eq_false_iff]
  left
  simp only [decide_eq_false_iff_not]
  omega

/-- C7 (steady state): with the single catalog source `example`
(5,000,000 images, url `example.com`), `known_tlds = {"example.com"}` and no
prior errors, one regulator tick writes more than 1 token to
`currtokens:example.com` and puts `example.com` in neither halt set.
Assumes a sane configuration: floor rate above 1 and a positive
temporary-halt sample minimum. -/
theorem claim_C7 (cfg : RegConfig) (now : ℚ)
    (hmin : 1 < cfg.MIN_CRAWL_RPS) (hsamp : 1 ≤ cfg.TEMP_HALT_MIN_SAMPLES) :
    1 < (regulator_tick cfg now [exampleSource] cleanRegState).tokenValue
        "currtokens:example.com" ∧
    "example.com" ∉ (regulator_tick cfg now [exampleSource] cleanRegState).halted ∧
    "example.com" ∉
      (regulator_tick cfg now [exampleSource] cleanRegState).temp_halted := by
  have hhard : hardHaltCheck
      (cleanRegState.last50 (LAST_50_REQUESTS ++ "example.com")) = false := by
    decide
  have htemp : tempHaltCheck cfg now
      (cleanRegState.status60s (STATUS_60s ++ "example.com")) = false :=
    tempHaltCheck_nil cfg now hsamp
  have hkey : ("currtokens:example.com" : String) = CURRTOKENS ++ "example.com" := by
    decide
  simp only [regulator_tick, List.foldl, processSource, exampleSource,
    hhard, htemp, Bool.false_eq_true, if_false]
  simp only [cleanRegState, List.mem_singleton, if_pos rfl, if_true, if_false,
    List.not_mem_nil, not_false_eq_true, and_true, List.mem_cons,
    or_false, RegState.tokenValue, hkey, Option.getD_some]
  exact lt_of_lt_of_le hmin (le_max_left _ _)

/-- Witness for C7 at the concrete configuration `cfg0` and time 0. -/
theorem claim_C7_witness :
    1 < (regulator_tick cfg0 0 [exampleSource] cleanRegState).tokenValue
        "currtokens:example.com" ∧
    "example.com" ∉ (regulator_tick cfg0 0 [exampleSource] cleanRegState).halted ∧
    "example.com" ∉
      (regulator_tick cfg0 0 [exampleSource] cleanRegState).temp_halted :=
  claim_C7 cfg0 0 (by norm_num [cfg0]) (by norm_num [cfg0])

/-- The S2 pre-state: `statuslast50req:example.com` holds 51 entries `"500"`,
everything else as in the steady state. -/
def hardHaltState : RegState :=
  { cleanRegState with last50 := fun k =>
      if k = LAST_50_REQUESTS ++ "example.com" then List.replicate 51 "500"
      else [] }

/-- C4: from the pre-state where `statuslast50req:example.com` holds 51
entries `"500"`, one regulator tick puts `example.com` in the `halted` set
and does not refill `currtokens:example.com`: the key stays absent and its
token value reads 0.  This holds for every configuration. -/
theorem claim_C4 (cfg : RegConfig) (now : ℚ) :
    "example.com" ∈ (regulator_tick cfg now [exampleSource] hardHaltState).halted ∧
    (regulator_tick cfg now [exampleSource] hardHaltState).currtokens
        "currtokens:example.com" = none ∧
    (regulator_tick cfg now [exampleSource] hardHaltState).tokenValue
        "currtokens:example.com" = 0 := by
  have hhard : hardHaltCheck
      (hardHaltState.last50 (LAST_50_REQUESTS ++ "example.com")) = true := by
    decide
  have hknown : "example.com" ∈ hardHaltState.known_tlds := by decide
  have h50 : hardHaltState.halted = [] := rfl
  have htks : hardHaltState.currtokens "currtokens:example.com" = none := rfl
  cases htemp : tempHaltCheck cfg now
      (hardHaltState.status60s (STATUS_60s ++ "example.com")) <;>
    simp only [regulator_tick, List.foldl, processSource, exampleSource,
      hhard, htemp, hknown, if_true, if_false, Bool.false_eq_true,
      saddStr, h50, List.not_mem_nil, List.mem_singleton,
      List.mem_cons, or_false, RegState.tokenValue] <;>
    simp [htks, RegState.tokenValue]

/-- The S3 pre-state: `status60s:example.com` holds three failure members
and eight success members, all scored `t`, everything else as in the steady
state. -/
def tempWindow (t : ℚ) : List (ℚ × Int) :=
  List.replicate 3 (t, FAILED) ++ List.replicate 8 (t, SUCCEEDED)

def tempHaltState (t : ℚ) : RegState :=
  { cleanRegState with status60s := fun k =>
      if k = STATUS_60s ++ "example.com" then tempWindow t else [] }

theorem tempHaltCheck_trips (cfg : RegConfig) (now t : ℚ)
    (h1 : now - 1 ≤ t) (h2 : t ≤ now)
    (h3 : cfg.TEMP_HALT_MIN_SAMPLES ≤ 11)
    (h4 : cfg.TEMP_HALT_THRESHOLD * 11 ≤ 3) :
    tempHaltCheck cfg now
      (List.replicate 3 (t, FAILED) ++ List.replicate 8 (t, SUCCEEDED))
        = true := by
  have ha : decide (now - 60 ≤ t) = true := decide_eq_true (by linarith)
  have hb : decide (t ≤ now) = true := decide_eq_true h2
  simp only [tempHaltCheck, List.filter_append, List.filter_replicate,
    ha, hb, Bool.and_self, if_true, FAILED, SUCCEEDED]
  norm_num
  constructor
  · omega
  · exact h4

/-- C5: from the pre-state where `status60s:example.com` holds exactly three
failure members and eight success members all scored within the last second,
one regulator tick puts `example.com` in the `temp_halted` set.  Assumes the
configuration the spec's observed behaviour pins down: the sample minimum is
at most 11 and the threshold share trips at 3 failures out of 11. -/
theorem claim_C5 (cfg : RegConfig) (now t : ℚ)
    (h1 : now - 1 ≤ t) (h2 : t ≤ now)
    (h3 : cfg.TEMP_HALT_MIN_SAMPLES ≤ 11)
    (h4 : cfg.TEMP_HALT_THRESHOLD * 11 ≤ 3) :
    "example.com" ∈
      (regulator_tick cfg now [exampleSource] (tempHaltState t)).temp_halted := by
  have hhard : hardHaltCheck
      ((tempHaltState t).last50 (LAST_50_REQUESTS ++ "example.com")) = false := by
    simp [tempHaltState, cleanRegState, hardHaltCheck]
  have htemp : tempHaltCheck cfg now
      ((tempHaltState t).status60s (STATUS_60s ++ "example.com")) = true := by
    have hwin : (tempHaltState t).status60s (STATUS_60s ++ "example.com")
        = tempWindow t := by
      simp [tempHaltState]
    rw [hwin]
    exact tempHaltCheck_trips cfg now t h1 h2 h3 h4
  have hknown : "example.com" ∈ (tempHaltState t).known_tlds := by
    simp [tempHaltState, cleanRegState]
  have hhalted : (tempHaltState t).halted = [] := rfl
  simp only [regulator_tick, List.foldl, processSource, exampleSource,
    hhard, htemp, hknown, if_true, if_false, Bool.false_eq_true,
    saddStr, hhalted, List.not_mem_nil, List.mem_singleton, List.mem_cons,
    or_false]
  by_cases hm : "example.com" ∈ (tempHaltState t).temp_halted <;>
    simp [hm]

/-- Witness for C5 at the concrete configuration `cfg0`, with all eleven
members scored at the tick time itself. -/
theorem claim_C5_witness :
    "example.com" ∈
      (regulator_tick cfg0 0 [exampleSource] (tempHaltState 0)).temp_halted :=
  claim_C5 cfg0 0 0 (by norm_num) (by norm_num) (by norm_num [cfg0])
    (by norm_num [cfg0])

/-- C10: `generate_usage_report` never raises `ZeroDivisionError`: whenever
the count of distinct search sessions in the interval is zero the reported
`avg_searches_per_session` is 0 (the handler's fallback), and otherwise it
is exactly `searches / sessions`. -/
theorem claim_C10 (db : AnalyticsDB) (start_time end_time : ℚ) :
    ((generate_usage_report db start_time end_time).sessions = 0 →
      (generate_usage_report db start_time end_time).avg_searches_per_session
        = 0) ∧
    ((generate_usage_report db start_time end_time).sessions ≠ 0 →
      (generate_usage_report db start_time end_time).avg_searches_per_session
        = ((generate_usage_report db start_time end_time).searches : ℚ) /
            ((generate_usage_report db start_time end_time).sessions : ℚ)) := by
  constructor
  · intro h
    simp only [generate_usage_report] at h ⊢
    rw [h]
    simp [pyDiv]
  · intro h
    simp only [generate_usage_report] at h ⊢
    rw [pyDiv, if_neg (by exact_mod_cast h)]

/-- Witness for C10: an interval with no search events reports average 0,
and two searches in one session report average 2. -/
theorem claim_C10_witness :
    (generate_usage_report
        { resultClickedEvents := []
          detailPageEvents := []
          searchEvents := []
          attributionReferrerEvents := [] } 0 1).avg_searches_per_session
      = 0 ∧
    (generate_usage_report
        { resultClickedEvents := []
          detailPageEvents := []
          searchEvents := [(1, "a"), (2, "a")]
          attributionReferrerEvents := [] } 0 10).avg_searches_per_session
      = ((generate_usage_report
            { resultClickedEvents := []
              detailPageEvents := []
              searchEvents := [(1, "a"), (2, "a")]
              attributionReferrerEvents := [] } 0 10).searches : ℚ) /
          ((generate_usage_report
              { resultClickedEvents := []
                detailPageEvents := []
                searchEvents := [(1, "a"), (2, "a")]
                attributionReferrerEvents := [] } 0 10).sessions : ℚ) := by
  constructor
  · exact (claim_C10 _ 0 1).1 (by decide)
  · exact (claim_C10 _ 0 10).2 (by decide)
